import Mathlib

/-!
Verification of the registration validator of the IMX-FastAPI repository
(`src/main.py`).  The only piece with real rules is the pydantic model
`UserCreate`: a `phone_number` field constrained by the regex
`^\d{2,4}-?\d{3,4}-?\d{4}$` (checked on the raw submitted string), a `name`
field constrained by `min_length=2, max_length=50`, and a field validator
`standardize_phone_number` that removes every hyphen from a phone number that
passed the pattern check.  Validation errors are collected in field
declaration order (`phone_number` before `name`), and the HTML-form handler
`handle_registration_form` displays a message derived from the first error
only.  This file embeds that validator as pure Lean functions and proves the
specification's claims about it.
-/

namespace IMX

/-- Reason codes of a validation error, mirroring the pydantic error types
`string_pattern_mismatch`, `string_too_short` and `string_too_long`. -/
inductive Reason where
  | pattern_mismatch
  | too_short
  | too_long
deriving DecidableEq, Repr

/-- A structured validation error: the field it concerns, the reason code,
and the length bound carried in the error context (pydantic's
`ctx.min_length` / `ctx.max_length`), when any. -/
structure ValidationError where
  field : String
  reason : Reason
  ctx : Option Nat
deriving DecidableEq, Repr

/-- The validated output record: normalized phone number and the name. -/
structure NormalizedUser where
  phone_number : String
  name : String
deriving DecidableEq, Repr

/-- Embedding of `value.replace("-", "")` from the field validator
`standardize_phone_number` in `src/main.py`: every hyphen character is
removed from the string, all other characters are kept in order. -/
def standardize_phone_number (value : String) : String :=
  ⟨value.data.filter fun c => decide (c ≠ '-')⟩

/-- The remainders a backtracking regex engine can leave after consuming the
optional-hyphen atom `-?`: either nothing is consumed, or one leading hyphen
is consumed. -/
def afterOptHyphen (cs : List Char) : List (List Char) :=
  match cs with
  | [] => [[]]
  | c :: rest => if c = '-' then [c :: rest, rest] else [c :: rest]

/-- Embedding of matching the anchored regex
`PHONE_NUMBER_REGEX = ^\d{2,4}-?\d{3,4}-?\d{4}$` from `src/main.py` against a
whole string: some choice of a first group of 2 to 4 digits, an optional
hyphen, a second group of 3 to 4 digits, an optional hyphen, and a final
group of exactly 4 digits consumes the entire character list.  `\d` is
modelled as a decimal digit character. -/
def phoneRegexMatch (cs : List Char) : Bool :=
  [2, 3, 4].any fun la =>
    decide (la ≤ cs.length) && (cs.take la).all Char.isDigit &&
      (afterOptHyphen (cs.drop la)).any fun r2 =>
        [3, 4].any fun lb =>
          decide (lb ≤ r2.length) && (r2.take lb).all Char.isDigit &&
            (afterOptHyphen (r2.drop lb)).any fun r4 =>
              decide (r4.length = 4) && r4.all Char.isDigit

/-- Whether a raw phone-number string matches `PHONE_NUMBER_REGEX`. -/
def matchesPhonePattern (s : String) : Bool :=
  phoneRegexMatch s.data

/-- The list of validation errors for one request, in field declaration
order: the `phone_number` pattern constraint first, then the `name` length
constraints (`min_length=2`, `max_length=50`), exactly as the pydantic model
`UserCreate` declares and checks them. -/
def fieldErrors (phone_number name : String) : List ValidationError :=
  (if matchesPhonePattern phone_number then []
   else [⟨"phone_number", Reason.pattern_mismatch, none⟩]) ++
  (if name.length < 2 then [⟨"name", Reason.too_short, some 2⟩]
   else if 50 < name.length then [⟨"name", Reason.too_long, some 50⟩]
   else [])

/-- Embedding of constructing `UserCreate(phone_number=..., name=...)`: if
any field constraint fails, a `ValidationError` carrying the collected error
list is raised; otherwise the record is built with the phone number
normalized by `standardize_phone_number` (which runs only after the pattern
check succeeded) and the name kept exactly as submitted. -/
def validate (phone_number name : String) :
    Except (List ValidationError) NormalizedUser :=
  if fieldErrors phone_number name = [] then
    Except.ok ⟨standardize_phone_number phone_number, name⟩
  else Except.error (fieldErrors phone_number name)

/-- The field of the first validation error, mirroring
`e.errors()[0]` / `error_details.get("loc", ...)[0]` in
`handle_registration_form`. -/
def firstErrorField (phone_number name : String) : Option String :=
  match validate phone_number name with
  | Except.ok _ => none
  | Except.error errs => errs.head?.map ValidationError.field

/-- The human-readable error message composed by `handle_registration_form`
from the first validation error, `none` when validation succeeded. -/
def formDisplayedError (phone_number name : String) : Option String :=
  match validate phone_number name with
  | Except.ok _ => none
  | Except.error errs =>
    match errs.head? with
    | none => some "입력값을 확인해주세요."
    | some e =>
      if e.field = "phone_number" then
        some "전화번호 형식이 올바르지 않습니다. (예: 010-1234-5678)"
      else if e.field = "name" then
        if e.reason = Reason.too_short then
          some ("이름은 최소 " ++ toString (e.ctx.getD 2) ++ "자 이상이어야 합니다.")
        else some "이름을 확인해주세요."
      else some "입력값을 확인해주세요."

example : matchesPhonePattern "010-1234-5678" = true := by decide
example : matchesPhonePattern "01012345678" = true := by decide
example : matchesPhonePattern "010-1234-567" = false := by decide
example : matchesPhonePattern "0-101234-5678" = false := by decide
example : matchesPhonePattern "abc" = false := by decide
example : standardize_phone_number "010-1234-5678" = "01012345678" := by decide
example : validate "010-1234-5678" "홍길동"
    = Except.ok ⟨"01012345678", "홍길동"⟩ := rfl

/-- The error list is empty exactly when the phone number matches the
pattern and the name length lies in [2, 50]. -/
lemma fieldErrors_eq_nil_iff (p n : String) :
    fieldErrors p n = [] ↔
      matchesPhonePattern p = true ∧ 2 ≤ n.length ∧ n.length ≤ 50 := by
  unfold fieldErrors
  split_ifs with h1 h2 h3 <;> simp_all

/-- On valid input, `validate` returns the normalized record. -/
lemma validate_ok_of_valid (p n : String) (hp : matchesPhonePattern p = true)
    (h2 : 2 ≤ n.length) (h50 : n.length ≤ 50) :
    validate p n = Except.ok ⟨standardize_phone_number p, n⟩ := by
  have h : fieldErrors p n = [] := (fieldErrors_eq_nil_iff p n).mpr ⟨hp, h2, h50⟩
  unfold validate
  rw [if_pos h]

/-- Inversion: a successful `validate` implies the input was valid and the
output is the normalized record. -/
lemma validate_ok_inv {p n : String} {u : NormalizedUser}
    (h : validate p n = Except.ok u) :
    matchesPhonePattern p = true ∧ 2 ≤ n.length ∧ n.length ≤ 50 ∧
      u = ⟨standardize_phone_number p, n⟩ := by
  unfold validate at h
  split_ifs at h with hfe
  obtain ⟨hp, h2, h50⟩ := (fieldErrors_eq_nil_iff p n).mp hfe
  simp only [Except.ok.injEq] at h
  exact ⟨hp, h2, h50, h.symm⟩

/-- When some field constraint fails, `validate` returns the whole collected
error list. -/
lemma validate_error_of_ne_nil {p n : String} (h : fieldErrors p n ≠ []) :
    validate p n = Except.error (fieldErrors p n) := by
  unfold validate
  rw [if_neg h]

/-- When the phone pattern fails, the error list starts with the
`phone_number` error, followed by whatever `name` errors apply. -/
lemma fieldErrors_phone_fail (p n : String) (h : matchesPhonePattern p = false) :
    fieldErrors p n =
      ValidationError.mk "phone_number" Reason.pattern_mismatch none ::
        (if n.length < 2 then [⟨"name", Reason.too_short, some 2⟩]
         else if 50 < n.length then [⟨"name", Reason.too_long, some 50⟩]
         else []) := by
  simp [fieldErrors, h]

/-- A digit character is never a hyphen. -/
lemma isDigit_ne_hyphen {c : Char} (h : c.isDigit = true) : c ≠ '-' := by
  intro he
  subst he
  exact absurd h (by decide)

/-- Hyphen removal leaves an all-digit character list unchanged. -/
lemma filter_eq_self_of_all_digits {l : List Char}
    (h : l.all Char.isDigit = true) :
    (l.filter fun c => decide (c ≠ '-')) = l := by
  rw [List.filter_eq_self]
  intro c hc
  exact decide_eq_true (isDigit_ne_hyphen (List.all_eq_true.mp h c hc))

/-- The remainders produced by the optional-hyphen atom differ from the
input by at most one leading hyphen. -/
lemma afterOptHyphen_mem {r1 r2 : List Char} (h : r2 ∈ afterOptHyphen r1) :
    r1 = r2 ∨ r1 = '-' :: r2 := by
  unfold afterOptHyphen at h
  cases r1 with
  | nil =>
    simp at h
    exact Or.inl h.symm
  | cons c t =>
    by_cases hc : c = '-'
    · subst hc
      simp at h
      rcases h with h | h
      · exact Or.inl h.symm
      · exact Or.inr (by rw [h])
    · simp [hc] at h
      exact Or.inl h.symm

/-- Soundness of the pattern matcher with respect to normalization: a
matching character list, after hyphen removal, is all digits and has length
between 9 and 12 (first group 2-4 digits, second 3-4 digits, last 4). -/
lemma phone_filter_sound {cs : List Char} (h : phoneRegexMatch cs = true) :
    (cs.filter fun c => decide (c ≠ '-')).all Char.isDigit = true ∧
      9 ≤ (cs.filter fun c => decide (c ≠ '-')).length ∧
      (cs.filter fun c => decide (c ≠ '-')).length ≤ 12 := by
  unfold phoneRegexMatch at h
  rw [List.any_eq_true] at h
  obtain ⟨la, hla_mem, hla⟩ := h
  rw [Bool.and_eq_true, Bool.and_eq_true] at hla
  obtain ⟨⟨hlen, hA⟩, h2⟩ := hla
  rw [List.any_eq_true] at h2
  obtain ⟨r2, hr2_mem, hr2⟩ := h2
  rw [List.any_eq_true] at hr2
  obtain ⟨lb, hlb_mem, hlb⟩ := hr2
  rw [Bool.and_eq_true, Bool.and_eq_true] at hlb
  obtain ⟨⟨hlen2, hB⟩, h3⟩ := hlb
  rw [List.any_eq_true] at h3
  obtain ⟨r4, hr4_mem, hr4⟩ := h3
  rw [Bool.and_eq_true] at hr4
  obtain ⟨hlen4, hC⟩ := hr4
  rw [decide_eq_true_eq] at hlen hlen2 hlen4
  have e1 : ((cs.drop la).filter fun c => decide (c ≠ '-'))
      = r2.filter fun c => decide (c ≠ '-') := by
    rcases afterOptHyphen_mem hr2_mem with hd | hd <;> simp [hd]
  have e2 : ((r2.drop lb).filter fun c => decide (c ≠ '-'))
      = r4.filter fun c => decide (c ≠ '-') := by
    rcases afterOptHyphen_mem hr4_mem with hd | hd <;> simp [hd]
  have e3 : (r2.filter fun c => decide (c ≠ '-')) = r2.take lb ++ r4 := by
    conv_lhs => rw [← List.take_append_drop lb r2]
    rw [List.filter_append, filter_eq_self_of_all_digits hB, e2,
      filter_eq_self_of_all_digits hC]
  have hFcs : (cs.filter fun c => decide (c ≠ '-'))
      = cs.take la ++ (r2.take lb ++ r4) := by
    conv_lhs => rw [← List.take_append_drop la cs]
    rw [List.filter_append, filter_eq_self_of_all_digits hA, e1, e3]
  have hlA : (cs.take la).length = la := by
    rw [List.length_take]
    omega
  have hlB : (r2.take lb).length = lb := by
    rw [List.length_take]
    omega
  have hla_b : 2 ≤ la ∧ la ≤ 4 := by
    simp at hla_mem
    rcases hla_mem with rfl | rfl | rfl <;> omega
  have hlb_b : 3 ≤ lb ∧ lb ≤ 4 := by
    simp at hlb_mem
    rcases hlb_mem with rfl | rfl <;> omega
  refine ⟨?_, ?_, ?_⟩
  · rw [hFcs]
    simp [List.all_append, hA, hB, hC]
  · rw [hFcs]
    simp only [List.length_append, hlA, hlB, hlen4]
    omega
  · rw [hFcs]
    simp only [List.length_append, hlA, hlB, hlen4]
    omega

/-- C1: for every phone number matching the pattern and every name of length
in [2, 50], `validate` succeeds, the returned phone number is the input with
all hyphens removed, and it contains no hyphen. -/
theorem validate_success_strips_hyphens (p n : String)
    (hp : matchesPhonePattern p = true)
    (h2 : 2 ≤ n.length) (h50 : n.length ≤ 50) :
    validate p n = Except.ok ⟨standardize_phone_number p, n⟩ ∧
      '-' ∉ (standardize_phone_number p).data := by
  refine ⟨validate_ok_of_valid p n hp h2 h50, ?_⟩
  intro hmem
  simp [standardize_phone_number, List.mem_filter] at hmem

theorem validate_success_strips_hyphens_witness :
    matchesPhonePattern "010-1234-5678" = true ∧
      2 ≤ ("Alice" : String).length ∧ ("Alice" : String).length ≤ 50 ∧
      (validate "010-1234-5678" "Alice"
          = Except.ok ⟨standardize_phone_number "010-1234-5678", "Alice"⟩ ∧
        '-' ∉ (standardize_phone_number "010-1234-5678").data) :=
  ⟨by decide, by decide, by decide,
    validate_success_strips_hyphens "010-1234-5678" "Alice"
      (by decide) (by decide) (by decide)⟩

/-- C2: for every phone number not matching the pattern and any name,
`validate` fails and the error list contains the `phone_number` /
`pattern_mismatch` error. -/
theorem validate_phone_mismatch_fails (p n : String)
    (h : matchesPhonePattern p = false) :
    ∃ errs, validate p n = Except.error errs ∧
      ValidationError.mk "phone_number" Reason.pattern_mismatch none ∈ errs := by
  have hfe := fieldErrors_phone_fail p n h
  have hne : fieldErrors p n ≠ [] := by
    rw [hfe]
    simp
  refine ⟨fieldErrors p n, validate_error_of_ne_nil hne, ?_⟩
  rw [hfe]
  exact List.mem_cons_self _ _

theorem validate_phone_mismatch_fails_witness :
    matchesPhonePattern "010-1234-567" = false ∧
      ∃ errs, validate "010-1234-567" "Alice" = Except.error errs ∧
        ValidationError.mk "phone_number" Reason.pattern_mismatch none ∈ errs :=
  ⟨by decide, validate_phone_mismatch_fails "010-1234-567" "Alice" (by decide)⟩

/-- C3: for every name of length outside [2, 50] and any phone number,
`validate` fails with a `name` error: `too_short` carrying minimum length 2
when the length is below 2, `too_long` when it exceeds 50. -/
theorem validate_name_length_fails (p n : String)
    (h : n.length < 2 ∨ 50 < n.length) :
    ∃ errs, validate p n = Except.error errs ∧
      (n.length < 2 →
        ValidationError.mk "name" Reason.too_short (some 2) ∈ errs) ∧
      (50 < n.length →
        ValidationError.mk "name" Reason.too_long (some 50) ∈ errs) := by
  have hne : fieldErrors p n ≠ [] := by
    rw [Ne, fieldErrors_eq_nil_iff]
    rintro ⟨-, hlo, hhi⟩
    omega
  refine ⟨fieldErrors p n, validate_error_of_ne_nil hne, ?_, ?_⟩
  · intro hlt
    simp [fieldErrors, hlt]
  · intro hgt
    have hnlt : ¬ n.length < 2 := by omega
    simp [fieldErrors, hnlt, hgt]

theorem validate_name_length_fails_witness :
    (("A" : String).length < 2 ∨ 50 < ("A" : String).length) ∧
      ∃ errs, validate "010-1234-5678" "A" = Except.error errs ∧
        (("A" : String).length < 2 →
          ValidationError.mk "name" Reason.too_short (some 2) ∈ errs) ∧
        (50 < ("A" : String).length →
          ValidationError.mk "name" Reason.too_long (some 50) ∈ errs) :=
  ⟨by decide, validate_name_length_fails "010-1234-5678" "A" (by decide)⟩

/-- C4: every record produced by a successful `validate` has a phone number
made of digit characters only, of length between 9 and 12, and a name of
length in [2, 50]. -/
theorem normalized_user_invariant (p n : String) (u : NormalizedUser)
    (h : validate p n = Except.ok u) :
    u.phone_number.data.all Char.isDigit = true ∧
      9 ≤ u.phone_number.length ∧ u.phone_number.length ≤ 12 ∧
      2 ≤ u.name.length ∧ u.name.length ≤ 50 := by
  obtain ⟨hp, h2, h50, hu⟩ := validate_ok_inv h
  subst hu
  have hm : phoneRegexMatch p.data = true := hp
  obtain ⟨hall, hlo, hhi⟩ := phone_filter_sound hm
  exact ⟨hall, hlo, hhi, h2, h50⟩

theorem normalized_user_invariant_witness :
    validate "010-1234-5678" "Alice"
        = Except.ok ⟨standardize_phone_number "010-1234-5678", "Alice"⟩ ∧
      ((standardize_phone_number "010-1234-5678").data.all Char.isDigit = true ∧
        9 ≤ (standardize_phone_number "010-1234-5678").length ∧
        (standardize_phone_number "010-1234-5678").length ≤ 12 ∧
        2 ≤ ("Alice" : String).length ∧ ("Alice" : String).length ≤ 50) :=
  ⟨rfl, normalized_user_invariant "010-1234-5678" "Alice"
    ⟨standardize_phone_number "010-1234-5678", "Alice"⟩ rfl⟩

/-- C5: `validate "010-1234-5678" "홍길동"` succeeds with phone number
`"01012345678"` and the name returned unchanged. -/
theorem validate_korean_roundtrip :
    validate "010-1234-5678" "홍길동" = Except.ok ⟨"01012345678", "홍길동"⟩ :=
  rfl

/-- C6: hyphen removal is idempotent — it leaves a hyphen-free string
unchanged, and applying it twice equals applying it once. -/
theorem standardize_idempotent (s : String) :
    ('-' ∉ s.data → standardize_phone_number s = s) ∧
      standardize_phone_number (standardize_phone_number s)
        = standardize_phone_number s := by
  constructor
  · intro h
    unfold standardize_phone_number
    have he : s.data.filter (fun c => decide (c ≠ '-')) = s.data :=
      List.filter_eq_self.mpr fun c hc => decide_eq_true fun hcc => h (hcc ▸ hc)
    rw [he]
  · unfold standardize_phone_number
    have he : ∀ l : List Char,
        ((l.filter fun c => decide (c ≠ '-')).filter fun c => decide (c ≠ '-'))
          = l.filter fun c => decide (c ≠ '-') :=
      fun l => List.filter_eq_self.mpr fun c hc => (List.mem_filter.mp hc).2
    rw [he]

theorem standardize_idempotent_witness :
    ('-' : Char) ∉ ("01012345678" : String).data ∧
      standardize_phone_number "01012345678" = "01012345678" :=
  ⟨by decide, (standardize_idempotent "01012345678").1 (by decide)⟩

/-- C7: the name length is checked on the raw submitted string with no
trimming: any name whose raw length is in [2, 50] is accepted (with a
matching phone number) and returned exactly as submitted, whitespace
included. -/
theorem name_checked_raw_no_trimming (p n : String)
    (hp : matchesPhonePattern p = true)
    (h2 : 2 ≤ n.length) (h50 : n.length ≤ 50) :
    ∃ u, validate p n = Except.ok u ∧ u.name = n :=
  ⟨⟨standardize_phone_number p, n⟩, validate_ok_of_valid p n hp h2 h50, rfl⟩

theorem name_checked_raw_no_trimming_witness :
    matchesPhonePattern "01012345678" = true ∧
      2 ≤ ("A " : String).length ∧ ("A " : String).length ≤ 50 ∧
      ∃ u, validate "01012345678" "A " = Except.ok u ∧ u.name = "A " :=
  ⟨by decide, by decide, by decide,
    name_checked_raw_no_trimming "01012345678" "A "
      (by decide) (by decide) (by decide)⟩

/-- C8: when both fields are invalid, the collected error list starts with
the `phone_number` error (field declaration order), so the HTML-form flow,
which inspects only the first error, displays the phone-number message. -/
theorem first_error_is_phone_number (p n : String)
    (hp : matchesPhonePattern p = false)
    (hn : n.length < 2 ∨ 50 < n.length) :
    (∃ errs, validate p n = Except.error errs ∧
        errs.head?
          = some ⟨"phone_number", Reason.pattern_mismatch, none⟩) ∧
      firstErrorField p n = some "phone_number" ∧
      formDisplayedError p n
        = some "전화번호 형식이 올바르지 않습니다. (예: 010-1234-5678)" := by
  have hfe := fieldErrors_phone_fail p n hp
  have hne : fieldErrors p n ≠ [] := by
    rw [hfe]
    simp
  have hval := validate_error_of_ne_nil hne
  refine ⟨⟨fieldErrors p n, hval, by rw [hfe]; rfl⟩, ?_, ?_⟩
  · unfold firstErrorField
    rw [hval, hfe]
    rfl
  · unfold formDisplayedError
    rw [hval, hfe]
    rfl

theorem first_error_is_phone_number_witness :
    matchesPhonePattern "abc" = false ∧
      (("A" : String).length < 2 ∨ 50 < ("A" : String).length) ∧
      ((∃ errs, validate "abc" "A" = Except.error errs ∧
          errs.head?
            = some ⟨"phone_number", Reason.pattern_mismatch, none⟩) ∧
        firstErrorField "abc" "A" = some "phone_number" ∧
        formDisplayedError "abc" "A"
          = some "전화번호 형식이 올바르지 않습니다. (예: 010-1234-5678)") :=
  ⟨by decide, by decide,
    first_error_is_phone_number "abc" "A" (by decide) (by decide)⟩

/-- C9: `validate` is deterministic — equal inputs give equal results; as a
total function of its two string arguments it touches no other state. -/
theorem validate_deterministic (p₁ n₁ p₂ n₂ : String)
    (hp : p₁ = p₂) (hn : n₁ = n₂) :
    validate p₁ n₁ = validate p₂ n₂ := by
  rw [hp, hn]

theorem validate_deterministic_witness :
    ("01012345678" : String) = "01012345678" ∧
      ("Al" : String) = "Al" ∧
      validate "01012345678" "Al" = validate "01012345678" "Al" :=
  ⟨rfl, rfl, validate_deterministic "01012345678" "Al" "01012345678" "Al" rfl rfl⟩

/-- C10: the pattern is checked on the raw, still-hyphenated input before
hyphen stripping: `"0-101234-5678"` fails the pattern and `validate` rejects
it with a `phone_number` error, although its digits alone,
`"01012345678"`, form a valid normalized number that `validate` accepts. -/
theorem pattern_checked_before_stripping :
    matchesPhonePattern "0-101234-5678" = false ∧
      matchesPhonePattern (standardize_phone_number "0-101234-5678") = true ∧
      validate "0-101234-5678" "Alice"
        = Except.error [⟨"phone_number", Reason.pattern_mismatch, none⟩] ∧
      validate "01012345678" "Alice"
        = Except.ok ⟨"01012345678", "Alice"⟩ :=
  ⟨by decide, by decide, rfl, rfl⟩

end IMX
